import Mathlib

/-!
Verification of the trending / viral-intelligence core of the
`confluent-viral-intelligence` streaming service.

Machine reals (Go `float64`) are embedded as `ℚ`; machine counts
(Go `int64` ordinal counters) as `ℕ`; timestamps as `ℚ` hours since
an arbitrary epoch (`now` is always passed explicitly).
-/

namespace Viral

/-- `models.TrendingScore` (`internal/models/events.go`): the per-post
aggregate stored in the `trending_scores` collection. -/
structure TrendingScore where
  postId : String
  score : ℚ
  viralProbability : ℚ
  engagementRate : ℚ
  viewCount : ℕ
  likeCount : ℕ
  commentCount : ℕ
  shareCount : ℕ
  remixCount : ℕ
  engagementVelocity : ℚ
  calculatedAt : ℚ
  timeWindow : String
  deriving Repr, DecidableEq

/-- Default-zero aggregate, mirroring Go zero value of the struct. -/
def TrendingScore.zero : TrendingScore :=
  { postId := "", score := 0, viralProbability := 0, engagementRate := 0,
    viewCount := 0, likeCount := 0, commentCount := 0, shareCount := 0,
    remixCount := 0, engagementVelocity := 0, calculatedAt := 0, timeWindow := "" }

/-- `TrendingUpdater.calculateScoreWithAge` (trending updater service):
weighted base score with time decay, engagement velocity and recency
bonus.  `createdAt` and `now` are in hours. -/
def TrendingUpdater.calculateScoreWithAge (score : TrendingScore)
    (createdAt now : ℚ) : ℚ :=
  let hoursSinceCreation : ℚ := now - createdAt
  let hoursSinceCreation : ℚ :=
    if hoursSinceCreation < 1/10 then 1/10 else hoursSinceCreation
  let baseScore : ℚ := (score.viewCount : ℚ) * (1/10) +
    (score.likeCount : ℚ) * 1 +
    (score.commentCount : ℚ) * 2 +
    (score.shareCount : ℚ) * 3 +
    (score.remixCount : ℚ) * 5
  let totalEngagement : ℚ :=
    ((score.likeCount + score.commentCount + score.shareCount + score.remixCount : ℕ) : ℚ)
  let engagementVelocity : ℚ := totalEngagement / hoursSinceCreation
  let lambda : ℚ := 3/100
  let timeDecayFactor : ℚ := 1 / (1 + lambda * hoursSinceCreation)
  let recencyBonus : ℚ :=
    if hoursSinceCreation < 24 then 10 * (1 - hoursSinceCreation / 24) else 0
  baseScore * timeDecayFactor + engagementVelocity * 5 + recencyBonus

/-- `PostIndexer.calculateScoreWithAge` (bulk indexer): a verbatim copy of
the trending updater's scoring function. -/
def PostIndexer.calculateScoreWithAge (score : TrendingScore)
    (createdAt now : ℚ) : ℚ :=
  let hoursSinceCreation : ℚ := now - createdAt
  let hoursSinceCreation : ℚ :=
    if hoursSinceCreation < 1/10 then 1/10 else hoursSinceCreation
  let baseScore : ℚ := (score.viewCount : ℚ) * (1/10) +
    (score.likeCount : ℚ) * 1 +
    (score.commentCount : ℚ) * 2 +
    (score.shareCount : ℚ) * 3 +
    (score.remixCount : ℚ) * 5
  let totalEngagement : ℚ :=
    ((score.likeCount + score.commentCount + score.shareCount + score.remixCount : ℕ) : ℚ)
  let engagementVelocity : ℚ := totalEngagement / hoursSinceCreation
  let lambda : ℚ := 3/100
  let timeDecayFactor : ℚ := 1 / (1 + lambda * hoursSinceCreation)
  let recencyBonus : ℚ :=
    if hoursSinceCreation < 24 then 10 * (1 - hoursSinceCreation / 24) else 0
  baseScore * timeDecayFactor + engagementVelocity * 5 + recencyBonus

/-- The C5 reference formula, written exactly following the specification
text: `hours_age = max(0.1, now − created_at)`, weighted base, velocity
per hour, decay `1/(1+0.03·h)`, recency bonus `10·max(0, 1 − h/24)`. -/
def specScoreC5 (views likes comments shares remixes : ℕ)
    (createdAt now : ℚ) : ℚ :=
  let hoursAge : ℚ := max (1/10) (now - createdAt)
  let base : ℚ := (1/10) * views + 1 * likes + 2 * comments + 3 * shares + 5 * remixes
  let totalEngagement : ℚ := ((likes : ℚ) + comments + shares + remixes)
  let velocityPerHour : ℚ := totalEngagement / hoursAge
  let timeDecay : ℚ := 1 / (1 + (3/100) * hoursAge)
  let recencyBonus : ℚ := 10 * max 0 (1 - hoursAge / 24)
  base * timeDecay + 5 * velocityPerHour + recencyBonus

/-- The two in-source copies of the scoring function agree, and both
match the spec-side C5 formula. -/
theorem calculateScoreWithAge_eq_spec (s : TrendingScore) (createdAt now : ℚ) :
    TrendingUpdater.calculateScoreWithAge s createdAt now =
      specScoreC5 s.viewCount s.likeCount s.commentCount s.shareCount s.remixCount
        createdAt now ∧
    PostIndexer.calculateScoreWithAge s createdAt now =
      TrendingUpdater.calculateScoreWithAge s createdAt now := by
  constructor
  · simp only [TrendingUpdater.calculateScoreWithAge, specScoreC5]
    rcases lt_or_le (now - createdAt) (1/10 : ℚ) with h | h
    · rw [if_pos h, max_eq_left h.le, if_pos (by norm_num : (1/10 : ℚ) < 24),
        max_eq_right (by norm_num : (0 : ℚ) ≤ 1 - 1/10/24)]
      push_cast
      ring
    · rw [if_neg (not_lt.mpr h), max_eq_right h]
      rcases lt_or_le (now - createdAt) (24 : ℚ) with h24 | h24
      · rw [if_pos h24, max_eq_right (by linarith : (0 : ℚ) ≤ 1 - (now - createdAt) / 24)]
        push_cast
        ring
      · rw [if_neg (not_lt.mpr h24),
          max_eq_left (by linarith : 1 - (now - createdAt) / 24 ≤ (0 : ℚ))]
        push_cast
        ring
  · rfl

/-- Example aggregate used by the spec's "moderate content" scenario:
15 views, 8 likes, nothing else. -/
def moderateAggregate : TrendingScore :=
  { TrendingScore.zero with postId := "moderate", viewCount := 15, likeCount := 8 }

/--
**C1.** The score computed by the trending refresher equals the C5
reference formula (clamped age, weighted base, per-hour velocity, decay
`1/(1+0.03h)`, recency bonus), the bulk indexer's copy is identical, and
for 15 views, 8 likes, 0 comments, 0 shares, 0 remixes at age exactly
2 hours the result is within 0.01 of 38.13.
-/
theorem trending_score_matches_C5_formula (s : TrendingScore) (createdAt now : ℚ) :
    TrendingUpdater.calculateScoreWithAge s createdAt now =
      specScoreC5 s.viewCount s.likeCount s.commentCount s.shareCount s.remixCount
        createdAt now ∧
    PostIndexer.calculateScoreWithAge s createdAt now =
      specScoreC5 s.viewCount s.likeCount s.commentCount s.shareCount s.remixCount
        createdAt now ∧
    |TrendingUpdater.calculateScoreWithAge moderateAggregate 0 2 - 3813/100| < 1/100 := by
  obtain ⟨h1, h2⟩ := calculateScoreWithAge_eq_spec s createdAt now
  refine ⟨h1, h2.trans h1, ?_⟩
  have hval : TrendingUpdater.calculateScoreWithAge moderateAggregate 0 2 = 12125/318 := by
    simp only [TrendingUpdater.calculateScoreWithAge, moderateAggregate, TrendingScore.zero]
    norm_num
  rw [hval]
  rw [abs_lt]
  norm_num

/-- `models.ViralPredictionRequest`. -/
structure ViralPredictionRequest where
  postId : String
  viewCount : ℕ
  likeCount : ℕ
  commentCount : ℕ
  shareCount : ℕ
  remixCount : ℕ
  engagementVelocity : ℚ
  timeElapsed : ℤ
  contentType : String
  deriving Repr, DecidableEq

/-- `models.ViralPredictionResponse`. -/
structure ViralPredictionResponse where
  viralProbability : ℚ
  confidence : ℚ
  predictedPeakTime : ℤ
  deriving Repr, DecidableEq

/-- Go helper `min64` from the Vertex AI client. -/
def min64 (a b : ℚ) : ℚ := if a < b then a else b

theorem min64_eq_min (a b : ℚ) : min64 a b = min a b := by
  unfold min64
  rcases lt_trichotomy a b with h | h | h
  · rw [if_pos h, min_eq_left h.le]
  · rw [h, if_neg (lt_irrefl b), min_self]
  · rw [if_neg (not_lt.mpr h.le), min_eq_right h.le]

/-- `VertexAIClient.PredictVirality`: deterministic viral-probability
heuristic (weighted engagement, velocity factor, per-minute time decay,
descending probability buckets, velocity boost, confidence band,
peak-time estimate). -/
def VertexAIClient.PredictVirality (req : ViralPredictionRequest) :
    ViralPredictionResponse :=
  let engagementScore : ℚ := (req.viewCount : ℚ) * 1 +
    (req.likeCount : ℚ) * 2 +
    (req.commentCount : ℚ) * 3 +
    (req.shareCount : ℚ) * 5 +
    (req.remixCount : ℚ) * 4
  let velocityFactor : ℚ := req.engagementVelocity * 10
  let timeDecay : ℚ :=
    if 0 < req.timeElapsed then 1 / (1 + (req.timeElapsed : ℚ) / 60) else 1
  let viralScore : ℚ := (engagementScore + velocityFactor) * timeDecay
  let viralProbability : ℚ :=
    if 200 < viralScore then 95/100
    else if 150 < viralScore then 85/100
    else if 100 < viralScore then 75/100
    else if 70 < viralScore then 65/100
    else if 50 < viralScore then 55/100
    else if 30 < viralScore then 40/100
    else if 20 < viralScore then 30/100
    else if 10 < viralScore then 20/100
    else if 5 < viralScore then 10/100
    else 5/100
  let viralProbability : ℚ :=
    if 20 < req.engagementVelocity then min64 (viralProbability * (12/10)) 1
    else if 10 < req.engagementVelocity then min64 (viralProbability * (11/10)) 1
    else viralProbability
  let totalEngagement : ℕ := req.viewCount + req.likeCount + req.commentCount +
    req.shareCount + req.remixCount
  let confidence : ℚ :=
    if 1000 < totalEngagement then 95/100
    else if 500 < totalEngagement then 90/100
    else if 100 < totalEngagement then 85/100
    else if 50 < totalEngagement then 75/100
    else if 10 < totalEngagement then 65/100
    else 1/2
  let predictedPeakTime : ℤ :=
    if 20 < req.engagementVelocity then 15
    else if 10 < req.engagementVelocity then 30
    else if 5 < req.engagementVelocity then 45
    else if 2 < req.engagementVelocity then 90
    else 120
  { viralProbability := viralProbability, confidence := confidence,
    predictedPeakTime := predictedPeakTime }

/-- The viral score as worded by the spec:
`(1·views + 2·likes + 3·comments + 5·shares + 4·remixes + velocity·10) ·
(1/(1 + minutes_elapsed/60))`. -/
def specViralScore (req : ViralPredictionRequest) : ℚ :=
  ((req.viewCount : ℚ) * 1 + (req.likeCount : ℚ) * 2 + (req.commentCount : ℚ) * 3 +
    (req.shareCount : ℚ) * 5 + (req.remixCount : ℚ) * 4 +
    req.engagementVelocity * 10) * (1 / (1 + (req.timeElapsed : ℚ) / 60))

/-- The spec's descending probability buckets. -/
def specBucket (x : ℚ) : ℚ :=
  if 200 < x then 95/100
  else if 150 < x then 85/100
  else if 100 < x then 75/100
  else if 70 < x then 65/100
  else if 50 < x then 55/100
  else if 30 < x then 40/100
  else if 20 < x then 30/100
  else if 10 < x then 20/100
  else if 5 < x then 10/100
  else 5/100

/-- The spec's velocity boost, clamped to 1. -/
def specBoost (velocity p : ℚ) : ℚ :=
  if 20 < velocity then min (p * (12/10)) 1
  else if 10 < velocity then min (p * (11/10)) 1
  else p

theorem specBucket_bounds (x : ℚ) : 5/100 ≤ specBucket x ∧ specBucket x ≤ 95/100 := by
  unfold specBucket
  split_ifs <;> norm_num

/--
**C2.** For every request with non-negative velocity and elapsed minutes,
`PredictVirality` computes the spec's viral score, buckets it, applies the
velocity boost clamped to 1; probability and confidence always lie in
[0,1] and the predicted peak time is positive.
-/
theorem predictVirality_matches_spec (req : ViralPredictionRequest)
    (hv : 0 ≤ req.engagementVelocity) (ht : 0 ≤ req.timeElapsed) :
    (VertexAIClient.PredictVirality req).viralProbability =
      specBoost req.engagementVelocity (specBucket (specViralScore req)) ∧
    0 ≤ (VertexAIClient.PredictVirality req).viralProbability ∧
    (VertexAIClient.PredictVirality req).viralProbability ≤ 1 ∧
    0 ≤ (VertexAIClient.PredictVirality req).confidence ∧
    (VertexAIClient.PredictVirality req).confidence ≤ 1 ∧
    0 < (VertexAIClient.PredictVirality req).predictedPeakTime := by
  have hdecay : (if 0 < req.timeElapsed then 1 / (1 + (req.timeElapsed : ℚ) / 60) else 1) =
      1 / (1 + (req.timeElapsed : ℚ) / 60) := by
    rcases eq_or_lt_of_le ht with h | h
    · rw [if_neg (by omega), ← h]
      norm_num
    · rw [if_pos h]
  have heq : (VertexAIClient.PredictVirality req).viralProbability =
      specBoost req.engagementVelocity (specBucket (specViralScore req)) := by
    simp only [VertexAIClient.PredictVirality, specBoost, specBucket, specViralScore,
      hdecay, min64_eq_min]
  refine ⟨heq, ?_, ?_, ?_, ?_, ?_⟩
  · rw [heq]
    obtain ⟨hb1, _⟩ := specBucket_bounds (specViralScore req)
    unfold specBoost
    split_ifs
    · exact le_min (by linarith) (by norm_num)
    · exact le_min (by linarith) (by norm_num)
    · linarith
  · rw [heq]
    obtain ⟨_, hb2⟩ := specBucket_bounds (specViralScore req)
    unfold specBoost
    split_ifs
    · exact min_le_right _ _
    · exact min_le_right _ _
    · linarith
  · simp only [VertexAIClient.PredictVirality]
    split_ifs <;> norm_num
  · simp only [VertexAIClient.PredictVirality]
    split_ifs <;> norm_num
  · simp only [VertexAIClient.PredictVirality]
    split_ifs <;> norm_num

/-- The "viral one-minute window" request from the spec's scenario 1. -/
def viralWindowRequest : ViralPredictionRequest :=
  { postId := "post_viral_001", viewCount := 50, likeCount := 30, commentCount := 15,
    shareCount := 10, remixCount := 0, engagementVelocity := 550, timeElapsed := 1,
    contentType := "image" }

theorem predictVirality_matches_spec_witness :
    (0 : ℚ) ≤ (550 : ℚ) ∧ (0 : ℤ) ≤ (1 : ℤ) ∧
    ((VertexAIClient.PredictVirality viralWindowRequest).viralProbability =
      specBoost viralWindowRequest.engagementVelocity
        (specBucket (specViralScore viralWindowRequest)) ∧
    0 ≤ (VertexAIClient.PredictVirality viralWindowRequest).viralProbability ∧
    (VertexAIClient.PredictVirality viralWindowRequest).viralProbability ≤ 1 ∧
    0 ≤ (VertexAIClient.PredictVirality viralWindowRequest).confidence ∧
    (VertexAIClient.PredictVirality viralWindowRequest).confidence ≤ 1 ∧
    0 < (VertexAIClient.PredictVirality viralWindowRequest).predictedPeakTime) :=
  ⟨by norm_num, by norm_num,
    predictVirality_matches_spec viralWindowRequest (by norm_num [viralWindowRequest])
      (by norm_num [viralWindowRequest])⟩

/-- The refresher's score as a function of the post's age in hours
(creation at time 0, evaluated at time `a`). -/
def scoreAtAge (s : TrendingScore) (a : ℚ) : ℚ :=
  TrendingUpdater.calculateScoreWithAge s 0 a

theorem scoreAtAge_of_ge24 (s : TrendingScore) (a : ℚ) (h : 24 ≤ a) :
    scoreAtAge s a =
      ((s.viewCount : ℚ) * (1/10) + (s.likeCount : ℚ) * 1 + (s.commentCount : ℚ) * 2 +
        (s.shareCount : ℚ) * 3 + (s.remixCount : ℚ) * 5) * (1 / (1 + (3/100) * a)) +
      (((s.likeCount + s.commentCount + s.shareCount + s.remixCount : ℕ) : ℚ) / a) * 5 := by
  unfold scoreAtAge TrendingUpdater.calculateScoreWithAge
  simp only [sub_zero]
  rw [if_neg (by linarith : ¬ a < 1/10), if_neg (by linarith : ¬ a < 24), add_zero]

/--
**C8 counterexample.** With all counts zero, ages 24 and 25 satisfy
`24 ≤ 24 < 25` yet the scores are equal (both 0), so the claimed strict
inequality `score(a1) > score(a2)` fails.
-/
theorem scoreAtAge_not_strict_on_zero_counts :
    (24 : ℚ) ≤ 24 ∧ (24 : ℚ) < 25 ∧
    ¬ scoreAtAge TrendingScore.zero 25 < scoreAtAge TrendingScore.zero 24 := by
  refine ⟨le_refl _, by norm_num, ?_⟩
  have h1 : scoreAtAge TrendingScore.zero 24 = 0 := by
    rw [scoreAtAge_of_ge24 _ _ (le_refl _)]
    simp [TrendingScore.zero]
  have h2 : scoreAtAge TrendingScore.zero 25 = 0 := by
    rw [scoreAtAge_of_ge24 _ _ (by norm_num : (24 : ℚ) ≤ 25)]
    simp [TrendingScore.zero]
  rw [h1, h2]
  exact lt_irrefl 0

/--
**C8 (amended).** For ages `24 ≤ a1 < a2` and fixed counts, the score at
`a1` is at least the score at `a2`, and strictly greater as soon as at
least one count is positive (with all counts zero both scores are 0).
-/
theorem scoreAtAge_antitone_after_24 (s : TrendingScore) (a1 a2 : ℚ)
    (h24 : 24 ≤ a1) (h12 : a1 < a2) :
    scoreAtAge s a2 ≤ scoreAtAge s a1 ∧
    (0 < s.viewCount + s.likeCount + s.commentCount + s.shareCount + s.remixCount →
      scoreAtAge s a2 < scoreAtAge s a1) := by
  have ha1 : (0 : ℚ) < a1 := by linarith
  have ha2 : (0 : ℚ) < a2 := by linarith
  have hd1 : (0 : ℚ) < 1 + (3/100) * a1 := by linarith
  have hdlt : 1 + (3/100) * a1 < 1 + (3/100) * a2 := by linarith
  rw [scoreAtAge_of_ge24 s a1 h24, scoreAtAge_of_ge24 s a2 (by linarith)]
  have hv : (0 : ℚ) ≤ (s.viewCount : ℚ) := Nat.cast_nonneg _
  have hl : (0 : ℚ) ≤ (s.likeCount : ℚ) := Nat.cast_nonneg _
  have hc : (0 : ℚ) ≤ (s.commentCount : ℚ) := Nat.cast_nonneg _
  have hs : (0 : ℚ) ≤ (s.shareCount : ℚ) := Nat.cast_nonneg _
  have hr : (0 : ℚ) ≤ (s.remixCount : ℚ) := Nat.cast_nonneg _
  have hB : (0 : ℚ) ≤ (s.viewCount : ℚ) * (1/10) + (s.likeCount : ℚ) * 1 +
      (s.commentCount : ℚ) * 2 + (s.shareCount : ℚ) * 3 + (s.remixCount : ℚ) * 5 := by
    linarith
  have hE : (0 : ℚ) ≤ ((s.likeCount + s.commentCount + s.shareCount + s.remixCount : ℕ) : ℚ) :=
    Nat.cast_nonneg _
  have hterm2 : ((s.likeCount + s.commentCount + s.shareCount + s.remixCount : ℕ) : ℚ) / a2 * 5 ≤
      ((s.likeCount + s.commentCount + s.shareCount + s.remixCount : ℕ) : ℚ) / a1 * 5 := by
    exact mul_le_mul_of_nonneg_right (div_le_div_of_nonneg_left hE ha1 h12.le) (by norm_num)
  constructor
  · refine add_le_add ?_ hterm2
    exact mul_le_mul_of_nonneg_left (one_div_le_one_div_of_le hd1 hdlt.le) hB
  · intro hpos
    have hsum : (0 : ℚ) <
        ((s.viewCount + s.likeCount + s.commentCount + s.shareCount + s.remixCount : ℕ) : ℚ) := by
      exact_mod_cast hpos
    have hBpos : (0 : ℚ) < (s.viewCount : ℚ) * (1/10) + (s.likeCount : ℚ) * 1 +
        (s.commentCount : ℚ) * 2 + (s.shareCount : ℚ) * 3 + (s.remixCount : ℚ) * 5 := by
      push_cast at hsum
      linarith
    refine add_lt_add_of_lt_of_le ?_ hterm2
    exact mul_lt_mul_of_pos_left (one_div_lt_one_div_of_lt hd1 hdlt) hBpos

theorem scoreAtAge_antitone_after_24_witness :
    (24 : ℚ) ≤ 24 ∧ (24 : ℚ) < 48 ∧
    (scoreAtAge moderateAggregate 48 ≤ scoreAtAge moderateAggregate 24 ∧
      (0 < moderateAggregate.viewCount + moderateAggregate.likeCount +
          moderateAggregate.commentCount + moderateAggregate.shareCount +
          moderateAggregate.remixCount →
        scoreAtAge moderateAggregate 48 < scoreAtAge moderateAggregate 24)) :=
  ⟨le_refl _, by norm_num,
    scoreAtAge_antitone_after_24 moderateAggregate 24 48 (le_refl _) (by norm_num)⟩

/-- `FirestoreClient.calculateScore`: the simplified "instant" weighted
score used by the hot-path update helpers (no decay, velocity or
recency terms). -/
def FirestoreClient.calculateScore (score : TrendingScore) : ℚ :=
  (score.viewCount : ℚ) * (1/10) +
    (score.likeCount : ℚ) * 1 +
    (score.commentCount : ℚ) * 2 +
    (score.shareCount : ℚ) * 3 +
    (score.remixCount : ℚ) * 5

/-- `FirestoreClient.UpdateTrendingScoreFromView`, modelled as the
document written back: `existing` is the result of the initial `Get`
(`none` = no document / Get error, triggering the creation branch). -/
def FirestoreClient.UpdateTrendingScoreFromView (postID : String)
    (existing : Option TrendingScore) (now : ℚ) : TrendingScore :=
  match existing with
  | none =>
      { TrendingScore.zero with
          postId := postID, viewCount := 1, score := 1/10, calculatedAt := now }
  | some score =>
      let score := { score with viewCount := score.viewCount + 1 }
      { score with score := FirestoreClient.calculateScore score, calculatedAt := now }

/-- `FirestoreClient.UpdateTrendingScoreFromInteraction`.  The Go
`switch` on the event type is rendered as an if-chain over the same
string comparisons. -/
def FirestoreClient.UpdateTrendingScoreFromInteraction (postID eventType : String)
    (existing : Option TrendingScore) (now : ℚ) : TrendingScore :=
  match existing with
  | none =>
      let score := { TrendingScore.zero with
          postId := postID, score := 1, calculatedAt := now }
      if eventType = "like" then { score with likeCount := 1 }
      else if eventType = "comment" then { score with commentCount := 1 }
      else if eventType = "share" then { score with shareCount := 1 }
      else score
  | some score =>
      let score :=
        if eventType = "like" then { score with likeCount := score.likeCount + 1 }
        else if eventType = "comment" then { score with commentCount := score.commentCount + 1 }
        else if eventType = "share" then { score with shareCount := score.shareCount + 1 }
        else score
      { score with score := FirestoreClient.calculateScore score, calculatedAt := now }

/-- `FirestoreClient.UpdateTrendingScoreFromRemix`. -/
def FirestoreClient.UpdateTrendingScoreFromRemix (postID : String)
    (existing : Option TrendingScore) (now : ℚ) : TrendingScore :=
  match existing with
  | none =>
      { TrendingScore.zero with
          postId := postID, remixCount := 1, score := 2, calculatedAt := now }
  | some score =>
      let score := { score with remixCount := score.remixCount + 1 }
      { score with score := FirestoreClient.calculateScore score, calculatedAt := now }

/--
**C6 counterexample.** The first remix event for a post creates an
aggregate with remix count 1 and stored score 2.0, while the instant
weight formula gives 5.0: the claimed equality fails on the creation
path.
-/
theorem instant_score_creation_mismatch :
    (FirestoreClient.UpdateTrendingScoreFromRemix "p" none 0).score = 2 ∧
    FirestoreClient.calculateScore (FirestoreClient.UpdateTrendingScoreFromRemix "p" none 0) = 5 ∧
    (FirestoreClient.UpdateTrendingScoreFromRemix "p" none 0).score ≠
      FirestoreClient.calculateScore (FirestoreClient.UpdateTrendingScoreFromRemix "p" none 0) := by
  refine ⟨rfl, ?_, ?_⟩
  · norm_num [FirestoreClient.UpdateTrendingScoreFromRemix, FirestoreClient.calculateScore,
      TrendingScore.zero]
  · norm_num [FirestoreClient.UpdateTrendingScoreFromRemix, FirestoreClient.calculateScore,
      TrendingScore.zero]

/--
**C6 (amended).** Whenever an aggregate document already exists, each
hot-path helper stores a score equal to
`0.1·views + 1·likes + 2·comments + 3·shares + 5·remixes` of the stored
counts, and the first-view creation also matches the formula (0.1);
however, the first-interaction and first-remix creation paths store the
fixed initial scores 1.0 and 2.0 regardless of the event's weight.
-/
theorem instant_score_formula (postID eventType : String) (s : TrendingScore) (now : ℚ) :
    (FirestoreClient.UpdateTrendingScoreFromView postID (some s) now).score =
      FirestoreClient.calculateScore
        (FirestoreClient.UpdateTrendingScoreFromView postID (some s) now) ∧
    (FirestoreClient.UpdateTrendingScoreFromInteraction postID eventType (some s) now).score =
      FirestoreClient.calculateScore
        (FirestoreClient.UpdateTrendingScoreFromInteraction postID eventType (some s) now) ∧
    (FirestoreClient.UpdateTrendingScoreFromRemix postID (some s) now).score =
      FirestoreClient.calculateScore
        (FirestoreClient.UpdateTrendingScoreFromRemix postID (some s) now) ∧
    (FirestoreClient.UpdateTrendingScoreFromView postID none now).score =
      FirestoreClient.calculateScore
        (FirestoreClient.UpdateTrendingScoreFromView postID none now) ∧
    (FirestoreClient.UpdateTrendingScoreFromInteraction postID eventType none now).score = 1 ∧
    (FirestoreClient.UpdateTrendingScoreFromRemix postID none now).score = 2 := by
  refine ⟨rfl, ?_, rfl, ?_, ?_, rfl⟩
  · simp only [FirestoreClient.UpdateTrendingScoreFromInteraction]
    split_ifs <;> rfl
  · norm_num [FirestoreClient.UpdateTrendingScoreFromView, FirestoreClient.calculateScore,
      TrendingScore.zero]
  · simp only [FirestoreClient.UpdateTrendingScoreFromInteraction]
    split_ifs <;> rfl

/-- Go helper `abs` from the trending-updater file. -/
def TrendingUpdater.abs (x : ℚ) : ℚ := if x < 0 then -x else x

theorem TrendingUpdater.abs_eq_abs (x : ℚ) : TrendingUpdater.abs x = |x| := by
  unfold TrendingUpdater.abs
  rcases lt_or_le x 0 with h | h
  · rw [if_pos h, abs_of_neg h]
  · rw [if_neg (not_lt.mpr h), abs_of_nonneg h]

/-- The score produced by the refresher's formula is never negative. -/
theorem calculateScoreWithAge_nonneg (s : TrendingScore) (createdAt now : ℚ) :
    0 ≤ TrendingUpdater.calculateScoreWithAge s createdAt now := by
  simp only [TrendingUpdater.calculateScoreWithAge]
  set h0 : ℚ := if now - createdAt < 1/10 then 1/10 else now - createdAt with hh0
  have h10 : (1 : ℚ)/10 ≤ h0 := by
    rw [hh0]
    split_ifs with h
    · exact le_refl _
    · exact not_lt.mp h
  have hpos : (0 : ℚ) < h0 := lt_of_lt_of_le (by norm_num) h10
  have hden : (0 : ℚ) < 1 + (3/100) * h0 := by nlinarith
  have hB : (0 : ℚ) ≤ (s.viewCount : ℚ) * (1/10) + (s.likeCount : ℚ) * 1 +
      (s.commentCount : ℚ) * 2 + (s.shareCount : ℚ) * 3 + (s.remixCount : ℚ) * 5 := by
    positivity
  have hE : (0 : ℚ) ≤
      ((s.likeCount + s.commentCount + s.shareCount + s.remixCount : ℕ) : ℚ) :=
    Nat.cast_nonneg _
  refine add_nonneg (add_nonneg ?_ ?_) ?_
  · exact mul_nonneg hB (le_of_lt (one_div_pos.mpr hden))
  · exact mul_nonneg (div_nonneg hE hpos.le) (by norm_num)
  · split_ifs with hrec
    · have hlt : h0 / 24 < 1 := (div_lt_one (by norm_num)).mpr hrec
      linarith
    · exact le_refl 0

/-- One document's pass inside
`TrendingUpdater.updateAllTrendingScores` combined with
`calculateDynamicScore`: creation time is looked up in the `posts`
collection (`createdAtOf`), falling back to the aggregate's own
`calculated_at`; the recomputed score is written back only when it
differs from the stored one by more than 1% of the stored value.
Returns the stored document and whether a write happened. -/
def TrendingUpdater.refreshOne (createdAtOf : String → Option ℚ) (now : ℚ)
    (score : TrendingScore) : TrendingScore × Bool :=
  let createdAt := (createdAtOf score.postId).getD score.calculatedAt
  let newScore := TrendingUpdater.calculateScoreWithAge score createdAt now
  if TrendingUpdater.abs (newScore - score.score) > score.score * (1/100) then
    ({ score with score := newScore, calculatedAt := now }, true)
  else
    (score, false)

/-- `TrendingUpdater.updateAllTrendingScores`: one tick over the whole
`trending_scores` collection; returns the resulting collection and the
number of writes performed. -/
def TrendingUpdater.updateAllTrendingScores (createdAtOf : String → Option ℚ)
    (now : ℚ) (docs : List TrendingScore) : List TrendingScore × ℕ :=
  (docs.map fun s => (TrendingUpdater.refreshOne createdAtOf now s).1,
   docs.countP fun s => (TrendingUpdater.refreshOne createdAtOf now s).2)

theorem calculateScoreWithAge_set (s : TrendingScore) (x y createdAt now : ℚ) :
    TrendingUpdater.calculateScoreWithAge
      { s with score := x, calculatedAt := y } createdAt now =
    TrendingUpdater.calculateScoreWithAge s createdAt now := rfl

theorem refreshOne_idem (createdAtOf : String → Option ℚ) (now : ℚ)
    (s : TrendingScore) (hs : (createdAtOf s.postId).isSome) :
    (TrendingUpdater.refreshOne createdAtOf now
      (TrendingUpdater.refreshOne createdAtOf now s).1).2 = false := by
  obtain ⟨ca, hca⟩ := Option.isSome_iff_exists.mp hs
  by_cases h1 : TrendingUpdater.abs
      (TrendingUpdater.calculateScoreWithAge s ca now - s.score) > s.score * (1/100)
  · have hr : (TrendingUpdater.refreshOne createdAtOf now s).1 =
        { s with score := TrendingUpdater.calculateScoreWithAge s ca now,
                 calculatedAt := now } := by
      simp only [TrendingUpdater.refreshOne, hca, Option.getD_some]
      rw [if_pos h1]
    rw [hr]
    simp only [TrendingUpdater.refreshOne, hca, Option.getD_some,
      calculateScoreWithAge_set]
    rw [if_neg]
    rw [sub_self, TrendingUpdater.abs_eq_abs, abs_zero]
    exact not_lt.mpr
      (mul_nonneg (calculateScoreWithAge_nonneg s ca now) (by norm_num))
  · have hr : (TrendingUpdater.refreshOne createdAtOf now s).1 = s := by
      simp only [TrendingUpdater.refreshOne, hca, Option.getD_some]
      rw [if_neg h1]
    rw [hr]
    simp only [TrendingUpdater.refreshOne, hca, Option.getD_some]
    rw [if_neg h1]

/--
**C5.** A refresher tick writes a document back iff the recomputed score
differs from the stored one by more than 1% of the stored value; when the
content-creation timestamp is available for every aggregate, a second
tick at the same instant (same counts, same age) performs zero writes.
-/
theorem refresher_writeback_threshold_and_noop
    (createdAtOf : String → Option ℚ) (now : ℚ) (docs : List TrendingScore)
    (hall : ∀ s ∈ docs, (createdAtOf s.postId).isSome) :
    (∀ s ∈ docs, ((TrendingUpdater.refreshOne createdAtOf now s).2 = true ↔
      |TrendingUpdater.calculateScoreWithAge s
          ((createdAtOf s.postId).getD s.calculatedAt) now - s.score| >
        s.score * (1/100))) ∧
    (TrendingUpdater.updateAllTrendingScores createdAtOf now
      (TrendingUpdater.updateAllTrendingScores createdAtOf now docs).1).2 = 0 := by
  constructor
  · intro s _
    simp only [TrendingUpdater.refreshOne]
    rw [TrendingUpdater.abs_eq_abs]
    split_ifs with h
    · exact iff_of_true rfl h
    · refine iff_of_false ?_ h
      simp
  · simp only [TrendingUpdater.updateAllTrendingScores]
    rw [List.countP_eq_zero]
    intro a ha
    rw [List.mem_map] at ha
    obtain ⟨s, hsdocs, rfl⟩ := ha
    have hidem := refreshOne_idem createdAtOf now s (hall s hsdocs)
    simp [hidem]

theorem refresher_writeback_threshold_and_noop_witness :
    (∀ s ∈ [moderateAggregate], ((fun _ : String => some (0 : ℚ)) s.postId).isSome) ∧
    ((∀ s ∈ [moderateAggregate],
      ((TrendingUpdater.refreshOne (fun _ => some 0) 2 s).2 = true ↔
        |TrendingUpdater.calculateScoreWithAge s
            (((fun _ : String => some (0 : ℚ)) s.postId).getD s.calculatedAt) 2 - s.score| >
          s.score * (1/100))) ∧
    (TrendingUpdater.updateAllTrendingScores (fun _ => some 0) 2
      (TrendingUpdater.updateAllTrendingScores (fun _ => some 0) 2 [moderateAggregate]).1).2 = 0) :=
  ⟨by simp,
    refresher_writeback_threshold_and_noop (fun _ => some 0) 2 [moderateAggregate] (by simp)⟩

/-- The counts the bulk indexer reads from a content record through
`getInt64` (which yields 0 when the field is missing or non-numeric),
plus the optional `created_at` timestamp. -/
structure PostRecord where
  viewCount : ℕ
  likeCount : ℕ
  commentCount : ℕ
  shareCount : ℕ
  remixCount : ℕ
  createdAt : Option ℚ
  deriving Repr, DecidableEq

/-- `PostIndexer.updateTrendingScoreFromPost`: overwrite the aggregate's
counts with the content record's counts, recompute the score with time
decay, stamp `calculated_at`. -/
def PostIndexer.updateTrendingScoreFromPost (post : PostRecord)
    (existingScore : TrendingScore) (now : ℚ) : TrendingScore :=
  let s := { existingScore with
      viewCount := post.viewCount, likeCount := post.likeCount,
      commentCount := post.commentCount, shareCount := post.shareCount,
      remixCount := post.remixCount }
  let createdAt := post.createdAt.getD existingScore.calculatedAt
  { s with score := PostIndexer.calculateScoreWithAge s createdAt now,
           calculatedAt := now }

/-- `PostIndexer.createTrendingScoreFromPost`. -/
def PostIndexer.createTrendingScoreFromPost (postID : String) (post : PostRecord)
    (now : ℚ) : TrendingScore :=
  let s := { TrendingScore.zero with
      postId := postID,
      viewCount := post.viewCount, likeCount := post.likeCount,
      commentCount := post.commentCount, shareCount := post.shareCount,
      remixCount := post.remixCount, calculatedAt := now }
  let createdAt := post.createdAt.getD now
  { s with score := PostIndexer.calculateScoreWithAge s createdAt now }

/-- A content record with every count field missing (`getInt64` → 0). -/
def emptyPostRecord : PostRecord :=
  { viewCount := 0, likeCount := 0, commentCount := 0, shareCount := 0,
    remixCount := 0, createdAt := none }

/-- Pointwise order on the five stored counts. -/
def countsLE (a b : TrendingScore) : Prop :=
  a.viewCount ≤ b.viewCount ∧ a.likeCount ≤ b.likeCount ∧
  a.commentCount ≤ b.commentCount ∧ a.shareCount ≤ b.shareCount ∧
  a.remixCount ≤ b.remixCount

/--
**C7 counterexample.** The bulk indexer overwrites the stored counts with
the content record's counts: re-indexing an aggregate with 15 views
against a content record whose count fields are absent stores
`view_count = 0 < 15`, so counts are not monotonically non-decreasing
across every core operation.
-/
theorem indexer_decreases_counts :
    (PostIndexer.updateTrendingScoreFromPost emptyPostRecord moderateAggregate 1).viewCount = 0 ∧
    moderateAggregate.viewCount = 15 ∧
    (PostIndexer.updateTrendingScoreFromPost emptyPostRecord moderateAggregate 1).viewCount <
      moderateAggregate.viewCount := by
  refine ⟨rfl, rfl, ?_⟩
  show (0 : ℕ) < 15
  norm_num

/--
**C7 (amended).** The hot-path helpers
(`UpdateTrendingScoreFrom{View,Interaction,Remix}`) and the refresher
never decrease any stored count (the refresher leaves counts unchanged);
the bulk indexer, by contrast, replaces counts with the content record's
values and is exempt.
-/
theorem counts_monotone_hot_path_and_refresher (postID eventType : String)
    (s : TrendingScore) (now : ℚ) (createdAtOf : String → Option ℚ) :
    countsLE s (FirestoreClient.UpdateTrendingScoreFromView postID (some s) now) ∧
    countsLE s (FirestoreClient.UpdateTrendingScoreFromInteraction postID eventType (some s) now) ∧
    countsLE s (FirestoreClient.UpdateTrendingScoreFromRemix postID (some s) now) ∧
    countsLE s (TrendingUpdater.refreshOne createdAtOf now s).1 ∧
    countsLE (TrendingUpdater.refreshOne createdAtOf now s).1 s := by
  refine ⟨?_, ?_, ?_, ?_, ?_⟩
  · exact ⟨Nat.le_succ _, le_refl _, le_refl _, le_refl _, le_refl _⟩
  · simp only [FirestoreClient.UpdateTrendingScoreFromInteraction]
    split_ifs <;>
      exact ⟨le_refl _, by simp, by simp, by simp, le_refl _⟩
  · exact ⟨le_refl _, le_refl _, le_refl _, le_refl _, Nat.le_succ _⟩
  · simp only [TrendingUpdater.refreshOne]
    split_ifs <;> exact ⟨le_refl _, le_refl _, le_refl _, le_refl _, le_refl _⟩
  · simp only [TrendingUpdater.refreshOne]
    split_ifs <;> exact ⟨le_refl _, le_refl _, le_refl _, le_refl _, le_refl _⟩

/-- Descending order on aggregates by score: the comparison used by the
`sort.Slice` call in `GetTrendingPosts`. -/
def byScoreDesc (a b : TrendingScore) : Prop := b.score ≤ a.score

instance : DecidableRel byScoreDesc :=
  fun a b => inferInstanceAs (Decidable (b.score ≤ a.score))

instance : IsTotal TrendingScore byScoreDesc :=
  ⟨fun a b => le_total b.score a.score⟩

instance : IsTrans TrendingScore byScoreDesc :=
  ⟨fun _ _ _ h1 h2 => le_trans h2 h1⟩

/-- `FirestoreClient.GetTrendingPosts`: scan the `trending_scores`
collection bounded at 100 documents, sort by score descending in memory,
truncate to `limit`. -/
def FirestoreClient.GetTrendingPosts (docs : List TrendingScore) (limit : ℕ) :
    List TrendingScore :=
  let scores := docs.take 100
  let sorted := List.insertionSort byScoreDesc scores
  if limit < sorted.length then sorted.take limit else sorted

/--
**C4.** For `1 ≤ k ≤ 100`, `GetTrendingPosts(k)` returns a list that is
sorted in non-increasing score order, has length at most `k`, and draws
every entry from the scan bounded at the first 100 documents.
-/
theorem getTrendingPosts_sorted_topN (docs : List TrendingScore) (k : ℕ)
    (hk1 : 1 ≤ k) (hk2 : k ≤ 100) :
    List.Sorted byScoreDesc (FirestoreClient.GetTrendingPosts docs k) ∧
    (FirestoreClient.GetTrendingPosts docs k).length ≤ k ∧
    ∀ x ∈ FirestoreClient.GetTrendingPosts docs k, x ∈ docs.take 100 := by
  have hsorted : List.Sorted byScoreDesc (List.insertionSort byScoreDesc (docs.take 100)) :=
    List.sorted_insertionSort byScoreDesc (docs.take 100)
  have hperm : List.Perm (List.insertionSort byScoreDesc (docs.take 100)) (docs.take 100) :=
    List.perm_insertionSort byScoreDesc (docs.take 100)
  simp only [FirestoreClient.GetTrendingPosts]
  split_ifs with hlen
  · refine ⟨hsorted.sublist (List.take_sublist _ _), ?_, ?_⟩
    · rw [List.length_take]
      exact min_le_left _ _
    · intro x hx
      exact hperm.mem_iff.mp (List.mem_of_mem_take hx)
  · refine ⟨hsorted, ?_, ?_⟩
    · exact not_lt.mp hlen
    · intro x hx
      exact hperm.mem_iff.mp hx

theorem getTrendingPosts_sorted_topN_witness :
    1 ≤ 2 ∧ 2 ≤ 100 ∧
    (List.Sorted byScoreDesc (FirestoreClient.GetTrendingPosts [moderateAggregate] 2) ∧
      (FirestoreClient.GetTrendingPosts [moderateAggregate] 2).length ≤ 2 ∧
      ∀ x ∈ FirestoreClient.GetTrendingPosts [moderateAggregate] 2,
        x ∈ ([moderateAggregate] : List TrendingScore).take 100) :=
  ⟨by norm_num, by norm_num,
    getTrendingPosts_sorted_topN [moderateAggregate] 2 (by norm_num) (by norm_num)⟩

/-- The two message shapes the WebSocket hub broadcasts. -/
inductive HubMessage
  | trendingUpdate (postId : String) (score : ℚ) (viewCount : ℕ)
  | viralAlert (postId : String) (viralProbability score : ℚ)
  deriving Repr, DecidableEq

/-- State touched by the consuming side of the event processor: the
`trending_scores` store and the hub's broadcast queue. -/
structure SystemState where
  store : String → Option TrendingScore
  hubQueue : List HubMessage

/-- `FirestoreClient.SaveTrendingScore`: replace-or-create the document
keyed by the aggregate's post id. -/
def FirestoreClient.SaveTrendingScore (store : String → Option TrendingScore)
    (score : TrendingScore) : String → Option TrendingScore :=
  fun k => if k = score.postId then some score else store k

/-- The `ViralPredictionRequest` literal built inside
`EventProcessor.ProcessTrendingScore`. -/
def viralRequestOf (score : TrendingScore) (elapsedMinutes : ℤ) :
    ViralPredictionRequest :=
  { postId := score.postId, viewCount := score.viewCount, likeCount := score.likeCount,
    commentCount := score.commentCount, shareCount := score.shareCount,
    remixCount := score.remixCount, engagementVelocity := score.engagementVelocity,
    timeElapsed := elapsedMinutes, contentType := "" }

/-- `EventProcessor.ProcessTrendingScore`: predict virality, store the
aggregate with the updated probability, and log a viral alert when the
probability exceeds 0.7 (the `TODO: Send push notifications` branch).
Returns the new state and whether the alert log line fired. -/
def EventProcessor.ProcessTrendingScore (st : SystemState) (score : TrendingScore)
    (elapsedMinutes : ℤ) : SystemState × Bool :=
  let prediction := VertexAIClient.PredictVirality (viralRequestOf score elapsedMinutes)
  let score := { score with viralProbability := prediction.viralProbability }
  ({ st with store := FirestoreClient.SaveTrendingScore st.store score },
   if score.viralProbability > 7/10 then true else false)

/-- Empty system state: no aggregates, empty hub queue. -/
def initState : SystemState := { store := fun _ => none, hubQueue := [] }

/-- The "viral one-minute window" aggregate from the spec's scenario 1. -/
def viralAggregate : TrendingScore :=
  { TrendingScore.zero with
      postId := "post_viral_001", viewCount := 50, likeCount := 30,
      commentCount := 15, shareCount := 10, engagementVelocity := 550 }

/--
**C3 counterexample.** Processing the scenario-1 aggregate yields a viral
probability of 1 (> 0.7) and writes the aggregate back, yet the hub queue
stays empty: no viral alert is ever enqueued to the subscriber hub
(`BroadcastViralAlert` has no caller in the processor; the code only logs
with a `TODO`).
-/
theorem processTrendingScore_no_hub_alert :
    (VertexAIClient.PredictVirality (viralRequestOf viralAggregate 1)).viralProbability = 1 ∧
    ((1 : ℚ) > 7/10) ∧
    (EventProcessor.ProcessTrendingScore initState viralAggregate 1).1.store "post_viral_001" =
      some { viralAggregate with viralProbability := 1 } ∧
    (EventProcessor.ProcessTrendingScore initState viralAggregate 1).1.hubQueue = [] := by
  have hprob : (VertexAIClient.PredictVirality (viralRequestOf viralAggregate 1)).viralProbability = 1 := by
    simp only [VertexAIClient.PredictVirality, viralRequestOf, viralAggregate,
      TrendingScore.zero, min64]
    norm_num
  refine ⟨hprob, by norm_num, ?_, rfl⟩
  simp only [EventProcessor.ProcessTrendingScore, FirestoreClient.SaveTrendingScore, hprob]
  norm_num [viralAggregate, TrendingScore.zero]

/--
**C3 (amended).** `ProcessTrendingScore` computes the viral probability
with the heuristic, writes the aggregate back with that probability
(leaving every other post untouched), and merely logs a viral alert when
the probability exceeds 0.7; it never enqueues anything to the subscriber
hub.
-/
theorem processTrendingScore_saves_and_only_logs (st : SystemState)
    (score : TrendingScore) (m : ℤ) :
    (EventProcessor.ProcessTrendingScore st score m).1.store score.postId =
      some { score with viralProbability :=
        (VertexAIClient.PredictVirality (viralRequestOf score m)).viralProbability } ∧
    (∀ k, k ≠ score.postId →
      (EventProcessor.ProcessTrendingScore st score m).1.store k = st.store k) ∧
    (EventProcessor.ProcessTrendingScore st score m).1.hubQueue = st.hubQueue ∧
    ((EventProcessor.ProcessTrendingScore st score m).2 = true ↔
      (VertexAIClient.PredictVirality (viralRequestOf score m)).viralProbability > 7/10) := by
  refine ⟨?_, ?_, rfl, ?_⟩
  · simp [EventProcessor.ProcessTrendingScore, FirestoreClient.SaveTrendingScore]
  · intro k hk
    simp [EventProcessor.ProcessTrendingScore, FirestoreClient.SaveTrendingScore, hk]
  · simp only [EventProcessor.ProcessTrendingScore]
    split_ifs with h
    · exact iff_of_true rfl h
    · exact iff_of_false (by simp) h

/-- Errors surfaced by the document store: a missing document surfaces as
the SDK's NotFound error. -/
inductive StoreErr
  | notFound
  | other
  deriving Repr, DecidableEq

/-- `FirestoreClient.GetPostStats` as the `(stats, err)` pair the Go
function returns: a missing `trending_scores` document yields
`(nil, NotFound)`; a present one yields `(doc, nil)`. -/
def FirestoreClient.GetPostStats (store : String → Option TrendingScore)
    (postID : String) : Option TrendingScore × Option StoreErr :=
  match store postID with
  | none => (none, some StoreErr.notFound)
  | some s => (some s, none)

/-- A minimal HTTP response: status code plus optional error text. -/
structure HttpResponse where
  status : ℕ
  errorMessage : Option String
  deriving Repr, DecidableEq

/-- `AnalyticsHandler.GetPostStats` (the canonical
`confluent-viral-intelligence` handler): 400 on empty id; 500 whenever
the store call returned an error; 404 when the returned aggregate is nil
without an error; 200 otherwise. -/
def AnalyticsHandler.GetPostStats (store : String → Option TrendingScore)
    (postID : String) : HttpResponse :=
  if postID = "" then { status := 400, errorMessage := some "Post ID is required" }
  else
    let res := FirestoreClient.GetPostStats store postID
    if res.2.isSome then { status := 500, errorMessage := some "Failed to fetch post stats" }
    else
      match res.1 with
      | none => { status := 404, errorMessage := some "Post not found" }
      | some _ => { status := 200, errorMessage := none }

/-- A store holding exactly the moderate aggregate under id "p1". -/
def singletonStore : String → Option TrendingScore :=
  fun k => if k = "p1" then some moderateAggregate else none

/--
**C9.** The handler answers 200 when an aggregate exists, but for an
absent id the store surfaces a NotFound *error*, the handler's
`err != nil` check fires first, and the response is 500 — the explicit
404 "Post not found" branch is unreachable, contradicting the spec's
documented 404.
-/
theorem getPostStats_200_but_500_when_absent :
    (AnalyticsHandler.GetPostStats singletonStore "p1").status = 200 ∧
    (AnalyticsHandler.GetPostStats singletonStore "p2").status = 500 ∧
    (AnalyticsHandler.GetPostStats singletonStore "p2").status ≠ 404 ∧
    (∀ store postID, postID ≠ "" → store postID = none →
      (AnalyticsHandler.GetPostStats store postID).status = 500) := by
  refine ⟨rfl, rfl, by decide, ?_⟩
  intro store postID hne habs
  simp [AnalyticsHandler.GetPostStats, FirestoreClient.GetPostStats, hne, habs]

/-- `models.KeywordExtractionResponse`. -/
structure KeywordExtractionResponse where
  keywords : List String
  category : String
  style : String
  mood : String
  deriving Repr, DecidableEq

/-- `cacheEntry`: a cached keyword response plus its expiry instant. -/
structure CacheEntry where
  response : KeywordExtractionResponse
  expiresAt : ℚ
  deriving Repr, DecidableEq

/-- The Vertex AI client's TTL cache, keyed by the string cache key. -/
def Cache : Type := String → Option CacheEntry

/-- `VertexAIClient.getFromCache`: a hit only when the entry exists and
`now` is not strictly after its expiry. -/
def VertexAIClient.getFromCache (cache : Cache) (key : String) (now : ℚ) :
    Option KeywordExtractionResponse :=
  match cache key with
  | none => none
  | some entry => if entry.expiresAt < now then none else some entry.response

/-- `VertexAIClient.putInCache`: store with a 1-hour TTL. -/
def VertexAIClient.putInCache (cache : Cache) (key : String)
    (response : KeywordExtractionResponse) (now : ℚ) : Cache :=
  fun k => if k = key then some { response := response, expiresAt := now + 1 } else cache k

/-- Go `strings.Fields`: split on whitespace runs, dropping empties. -/
def stringFields (s : String) : List String :=
  (s.split Char.isWhitespace).filter (fun w => w ≠ "")

/-- `VertexAIClient.fallbackKeywordExtraction`: deterministic keyword
extraction used when the AI call fails. -/
def VertexAIClient.fallbackKeywordExtraction (prompt contentType : String) :
    KeywordExtractionResponse :=
  let words := stringFields prompt.toLower
  let keywords := [contentType, "ai-generated"]
  let keywords := words.foldl (fun acc word =>
    if 3 < word.length ∧ acc.length < 10 then
      if word ≠ "the" ∧ word ≠ "and" ∧ word ≠ "with" ∧ word ≠ "for" then
        acc ++ [word]
      else acc
    else acc) keywords
  let defaultKeywords := ["creative", "digital", "content", "generated", "artistic"]
  let keywords := defaultKeywords.foldl (fun acc kw =>
    if 10 ≤ acc.length then acc else acc ++ [kw]) keywords
  { keywords := keywords.take (min 10 keywords.length),
    category := contentType, style := "general", mood := "neutral" }

/-- Outcome of the external Gemini call plus JSON parsing inside
`ExtractKeywords`: the call can fail, its response can fail to parse as
JSON (directly and after brace-extraction), or it parses. -/
inductive AIOutcome
  | callFailed
  | parseFailed
  | parsed (result : KeywordExtractionResponse)

/-- The keyword-count validation step of `ExtractKeywords` (pad with
generic keywords below 5, truncate above 10). -/
def validateKeywords (result : KeywordExtractionResponse) (contentType : String) :
    KeywordExtractionResponse :=
  if result.keywords.length < 5 ∨ 10 < result.keywords.length then
    if result.keywords.length < 5 then
      let ks := result.keywords ++ [contentType, "ai-generated", "creative", "digital", "content"]
      if 10 < ks.length then { result with keywords := ks.take 10 }
      else { result with keywords := ks }
    else if 10 < result.keywords.length then
      { result with keywords := result.keywords.take 10 }
    else result
  else result

/-- The cache key `fmt.Sprintf("keywords:%s:%s", contentType, prompt)`. -/
def cacheKeyFor (contentType prompt : String) : String :=
  "keywords:" ++ contentType ++ ":" ++ prompt

/-- `VertexAIClient.ExtractKeywords`: cache lookup, then the AI call; a
failed call or unparsable response falls back to the deterministic
extraction *without* caching; a parsed response is validated and cached. -/
def VertexAIClient.ExtractKeywords (cache : Cache) (now : ℚ) (outcome : AIOutcome)
    (prompt contentType : String) : KeywordExtractionResponse × Cache :=
  let cacheKey := cacheKeyFor contentType prompt
  match VertexAIClient.getFromCache cache cacheKey now with
  | some cached => (cached, cache)
  | none =>
    match outcome with
    | AIOutcome.callFailed =>
        (VertexAIClient.fallbackKeywordExtraction prompt contentType, cache)
    | AIOutcome.parseFailed =>
        (VertexAIClient.fallbackKeywordExtraction prompt contentType, cache)
    | AIOutcome.parsed result =>
        let result := validateKeywords result contentType
        (result, VertexAIClient.putInCache cache cacheKey result now)

/--
**C10.** When the AI call fails or its response cannot be parsed, the
fallback keyword result is never inserted into the TTL cache: the cache
is returned unchanged, and on a cache miss a repeated call with the same
inputs recomputes the same fallback (still leaving the cache unchanged).
-/
theorem extractKeywords_fallback_not_cached (cache : Cache) (now : ℚ)
    (outcome : AIOutcome) (prompt contentType : String)
    (hfail : outcome = AIOutcome.callFailed ∨ outcome = AIOutcome.parseFailed) :
    (VertexAIClient.ExtractKeywords cache now outcome prompt contentType).2 = cache ∧
    (VertexAIClient.getFromCache cache (cacheKeyFor contentType prompt) now = none →
      (VertexAIClient.ExtractKeywords cache now outcome prompt contentType).1 =
        VertexAIClient.fallbackKeywordExtraction prompt contentType ∧
      (VertexAIClient.ExtractKeywords
          (VertexAIClient.ExtractKeywords cache now outcome prompt contentType).2
          now outcome prompt contentType).1 =
        VertexAIClient.fallbackKeywordExtraction prompt contentType) := by
  cases hres : VertexAIClient.getFromCache cache (cacheKeyFor contentType prompt) now with
  | some cached =>
      refine ⟨?_, fun hmiss => by simp at hmiss⟩
      rcases hfail with h | h <;> subst h <;>
        simp [VertexAIClient.ExtractKeywords, hres]
  | none =>
      rcases hfail with h | h <;> subst h <;>
        exact ⟨by simp [VertexAIClient.ExtractKeywords, hres],
          fun _ => ⟨by simp [VertexAIClient.ExtractKeywords, hres],
            by simp [VertexAIClient.ExtractKeywords, hres]⟩⟩

/-- The all-empty cache. -/
def emptyCache : Cache := fun _ => none

theorem extractKeywords_fallback_not_cached_witness :
    (AIOutcome.callFailed = AIOutcome.callFailed ∨
      AIOutcome.callFailed = AIOutcome.parseFailed) ∧
    ((VertexAIClient.ExtractKeywords emptyCache 0 AIOutcome.callFailed
        "sunset over the mountains" "image").2 = emptyCache ∧
    (VertexAIClient.getFromCache emptyCache
        (cacheKeyFor "image" "sunset over the mountains") 0 = none →
      (VertexAIClient.ExtractKeywords emptyCache 0 AIOutcome.callFailed
          "sunset over the mountains" "image").1 =
        VertexAIClient.fallbackKeywordExtraction "sunset over the mountains" "image" ∧
      (VertexAIClient.ExtractKeywords
          (VertexAIClient.ExtractKeywords emptyCache 0 AIOutcome.callFailed
            "sunset over the mountains" "image").2
          0 AIOutcome.callFailed "sunset over the mountains" "image").1 =
        VertexAIClient.fallbackKeywordExtraction "sunset over the mountains" "image")) :=
  ⟨Or.inl rfl,
    extractKeywords_fallback_not_cached emptyCache 0 AIOutcome.callFailed
      "sunset over the mountains" "image" (Or.inl rfl)⟩

end Viral
